import Mathlib

/-
  Verification development for the packet-buffer / socket / DHCP layer of the
  seqs embedded TCP/IP stack.

  Shallow embedding conventions:
  * Go byte buffers are `List Nat` (each element a byte value).
  * `time.Time` timestamps are `Nat`: `0` is the zero sentinel (`IsZero`),
    `forcedTime` is the distinguished nonzero "forced response" sentinel.
  * Go `nil` slices / optional results are `Option`.
  * A Go runtime panic (out-of-range slice, `netip.Addr.As4` on a non-IPv4
    address) is a distinguished `crash` outcome rather than a value.
  * Machine integers: the header fields that feed the geometry resolver are
    small (IHL and data-offset come from 4-bit fields via `uint8` accessors,
    total length is `uint16`), so the `int` arithmetic of the source is exact;
    it is modelled with `Int`.  Where `uint16` wraparound could matter
    (IP total length of the response) an explicit `% 65536` is used.
-/

namespace Seqs

set_option maxRecDepth 16000

set_option maxHeartbeats 1000000

/-- Errors returned by Go functions are modelled by their message string. -/
abbrev GoError := String

/-- Size of an Ethernet header in bytes (constant of the external eth codec). -/
def SizeEthernetHeader : Nat := 14

/-- Size of a fixed IPv4 header in bytes (constant of the external eth codec). -/
def SizeIPv4Header : Nat := 20

/-- Size of a fixed TCP header in bytes (constant of the external eth codec). -/
def SizeTCPHeader : Nat := 20

/-- Size of a UDP header in bytes (constant of the external eth codec). -/
def SizeUDPHeader : Nat := 8

/-- Size of the fixed DHCP/BOOTP header in bytes (constant of the external eth codec). -/
def SizeDHCPHeader : Nat := 44

/-- Modelled from the spec: the "forced" timestamp sentinel (`forcedTime` is
declared outside the provided sources).  Per the spec it is a sentinel value
distinct from the zero timestamp; it is modelled as the fixed nonzero value 1,
and real receive timestamps are any value other than 0 and `forcedTime`. -/
def forcedTime : Nat := 1

/-- Overwrite `buf` starting at offset `off` with the bytes `bs`
(the effect of a Go `copy`/`Put` into a sub-slice of `buf`; every use below is
within bounds, matching that the source's writes are bounds-checked by Go). -/
def putAt (buf : List Nat) (off : Nat) (bs : List Nat) : List Nat :=
  buf.take off ++ bs ++ buf.drop (off + bs.length)

/-- Set every byte of `buf` from offset `off` (inclusive) to the end to zero:
the effect of the source's `for i := off; i < len(resp); i++ ; resp[i] = 0` loop. -/
def zeroFrom (buf : List Nat) (off : Nat) : List Nat :=
  buf.take off ++ List.replicate (buf.length - off) 0

/-- Go slice expression `buf[lo:hi]` on an exactly-sized buffer: defined only
when `lo ≤ hi ≤ len(buf)`; out-of-range slicing is a runtime panic, which the
callers below model explicitly. -/
def goSlice (buf : List Nat) (lo hi : Nat) : List Nat :=
  (buf.drop lo).take (hi - lo)

/-- Geometry resolver, translated from `(*TCPPacket).dataPtrs`:
given the IP header IHL accessor value, the TCP data-offset-in-bytes accessor
value, the IP total-length field and the capacity `len(p.data)`, it returns
`(payloadStart, payloadEnd, tcpOptStart)` — the Go result order — or the
sentinel `(-1, -1, -1)`. -/
def dataPtrs (ihl offsetInBytes totalLength cap : Nat) : Int × Int × Int :=
  let tcpOptStart : Int := 4 * (ihl : Int) - (SizeIPv4Header : Int)
  let payloadStart : Int := tcpOptStart + (offsetInBytes : Int) - (SizeTCPHeader : Int)
  let payloadEnd : Int :=
    (totalLength : Int) - tcpOptStart - (SizeTCPHeader : Int) - (SizeIPv4Header : Int)
  if payloadStart < 0 ∨ payloadEnd < 0 ∨ tcpOptStart < 0 ∨ payloadStart > payloadEnd ∨
      payloadEnd > (cap : Int) ∨ tcpOptStart > payloadStart then
    (-1, -1, -1)
  else
    (payloadStart, payloadEnd, tcpOptStart)

/-- The fields of the external `eth.IPv4Header` codec that the TCP packet
geometry consumes: the `IHL()` accessor result and the `TotalLength` field. -/
structure TcpIPv4Fields where
  ihl : Nat
  TotalLength : Nat
deriving DecidableEq, Repr

/-- The field of the external `eth.TCPHeader` codec that the geometry consumes:
the `OffsetInBytes()` accessor result. -/
structure TcpHeaderFields where
  offsetInBytes : Nat
deriving DecidableEq, Repr

/-- `TCPPacket`: receive timestamp, decoded headers (only the fields the
embedded code reads), and the fixed-capacity data region holding IP options,
TCP options and payload contiguously. -/
structure TCPPacket where
  Rx : Nat
  IP : TcpIPv4Fields
  TCP : TcpHeaderFields
  data : List Nat
deriving DecidableEq, Repr

/-- Translated from `(*TCPPacket).HasPacket`:
`u.Rx != forcedTime && !u.Rx.IsZero()`. -/
def TCPPacket.HasPacket (p : TCPPacket) : Bool :=
  p.Rx ≠ forcedTime ∧ p.Rx ≠ 0

/-- The geometry resolver applied to a packet's own header fields and data
capacity, as in the method receiver form of `dataPtrs`. -/
def TCPPacket.dataPtrs (p : TCPPacket) : Int × Int × Int :=
  Seqs.dataPtrs p.IP.ihl p.TCP.offsetInBytes p.IP.TotalLength p.data.length

/-- Translated from `(*TCPPacket).Payload`: `nil` (here `none`) when there is
no packet or the geometry is invalid, else the slice
`p.data[payloadStart:payloadEnd]`. -/
def TCPPacket.Payload (p : TCPPacket) : Option (List Nat) :=
  if ¬ p.HasPacket then none
  else
    let ptrs := p.dataPtrs
    if ptrs.1 < 0 then none
    else some (goSlice p.data ptrs.1.toNat ptrs.2.1.toNat)

/-- The socket structure `tcpSocket`.  The user-stored handler function and the
external `seqs.ControlBlock` are opaque collaborators (spec section 1); their
observable behaviour during one dispatch is carried as data:
`handlerNil` models `handler == nil`, `handlerRes` is the `(n, err)` pair the
stored handler returns when invoked, `tcbRecvErr` is the error result of
`tcb.Recv(incoming)` and `tcbPendingOk` the boolean result of
`tcb.PendingSegment(0)`. -/
structure tcpSocket where
  LastRx : Nat
  handlerNil : Bool
  handlerRes : Int × Option GoError
  Port : Nat
  packet : TCPPacket
  tcbRecvErr : Option GoError
  tcbPendingOk : Bool
deriving DecidableEq, Repr

/-- Translated from `(*tcpSocket).IsPendingHandling`:
`u.Port != 0 && !u.packets[0].Rx.IsZero()`. -/
def tcpSocket.IsPendingHandling (u : tcpSocket) : Bool :=
  u.Port ≠ 0 ∧ u.packet.Rx ≠ 0

/-- Translated from `(*tcpSocket).forceResponse`: if nothing is pending
handling, mark the slot with the forced sentinel and report `true`. -/
def tcpSocket.forceResponse (u : tcpSocket) : Bool × tcpSocket :=
  if ¬ u.IsPendingHandling then
    (true, { u with packet := { u.packet with Rx := forcedTime } })
  else
    (false, u)

/-- Translated from `(*tcpSocket).Open`: panics (`none`) on a zero port or nil
handler, else stores the handler, sets the port and invalidates the slot. -/
def tcpSocket.Open (u : tcpSocket) (port : Nat) (hNil : Bool)
    (hres : Int × Option GoError) : Option tcpSocket :=
  if port = 0 ∨ hNil then none
  else some { u with handlerNil := false, handlerRes := hres, Port := port,
                     packet := { u.packet with Rx := 0 } }

/-- Result of one `HandleEth` dispatch: the returned byte count and error, the
socket state after the call, and how many times the stored handler was invoked
during the call.  `none` models the nil-handler panic.  (The handler's own
writes into `dst` and the packet slot are not observed by any claim; the slot
timestamp is overwritten by `HandleEth` itself after the handler returns.) -/
def tcpSocket.HandleEth (u : tcpSocket) :
    Option (Int × Option GoError × tcpSocket × Nat) :=
  if u.handlerNil then none
  else if u.packet.HasPacket then
    match u.tcbRecvErr with
    | some e => some (0, some e, u, 0)
    | none =>
      if u.tcbPendingOk then
        some (u.handlerRes.1, u.handlerRes.2,
              { u with packet := { u.packet with Rx := 0 } }, 1)
      else
        some (0, none, { u with packet := { u.packet with Rx := 0 } }, 0)
  else
    some (u.handlerRes.1, u.handlerRes.2,
          { u with packet := { u.packet with Rx := 0 } }, 1)

/-- Model of Go `net/netip.Addr` as used by the DHCP server: the only values
that arise are the zero `Addr` (the struct zero value, not an IPv4 address) and
addresses built with `netip.AddrFrom4`. -/
structure NetipAddr where
  is4 : Bool
  a4 : List Nat
deriving DecidableEq, Repr

/-- The zero value of `netip.Addr`. -/
def zeroAddr : NetipAddr := ⟨false, [0, 0, 0, 0]⟩

/-- Go `netip.AddrFrom4`. -/
def AddrFrom4 (b : List Nat) : NetipAddr := ⟨true, b⟩

/-- Go `netip.Addr.As4`: returns the 4-byte representation, and panics
(modelled as `none`) when called on the zero `Addr` (or an IPv6 address),
exactly as documented for `net/netip`. -/
def NetipAddr.As4 (a : NetipAddr) : Option (List Nat) :=
  if a.is4 then some a.a4 else none

/-- Big-endian 2-byte encoding of a 16-bit value. -/
def be16 (n : Nat) : List Nat := [n / 256 % 256, n % 256]

/-- Big-endian 4-byte encoding of a 32-bit value. -/
def be32 (n : Nat) : List Nat :=
  [n / 16777216 % 256, n / 65536 % 256, n / 256 % 256, n % 256]

/-- Big-endian 16-bit read at offset `off`. -/
def readBE16 (b : List Nat) (off : Nat) : Nat :=
  b.getD off 0 * 256 + b.getD (off + 1) 0

/-- Big-endian 32-bit read at offset `off`. -/
def readBE32 (b : List Nat) (off : Nat) : Nat :=
  ((b.getD off 0 * 256 + b.getD (off + 1) 0) * 256 + b.getD (off + 2) 0) * 256 +
    b.getD (off + 3) 0

/-- The external `eth.DHCPHeader` struct: the fixed 44-byte DHCP/BOOTP header
fields (op, hardware type and length, hops, transaction id, seconds, flags,
the four addresses and the 16-byte client hardware address). -/
structure DHCPHeader where
  OP : Nat
  HType : Nat
  HLen : Nat
  HOps : Nat
  Xid : Nat
  Secs : Nat
  Flags : Nat
  CIAddr : List Nat
  YIAddr : List Nat
  SIAddr : List Nat
  GIAddr : List Nat
  CHAddr : List Nat
deriving DecidableEq, Repr

/-- The zero value of `eth.DHCPHeader` (`var hdr eth.DHCPHeader`). -/
def zeroDHCPHeader : DHCPHeader :=
  ⟨0, 0, 0, 0, 0, 0, 0, [0, 0, 0, 0], [0, 0, 0, 0], [0, 0, 0, 0], [0, 0, 0, 0],
   List.replicate 16 0⟩

/-- Modelled from the spec: `eth.DecodeDHCPHeader`, the external header codec
(spec section 1 lists header decode as an external collaborator; section 6
gives the fixed BOOTP wire layout).  Fields are read at their standard BOOTP
offsets; the caller has already checked `len(b) ≥ SizeDHCPHeader`. -/
def DecodeDHCPHeader (b : List Nat) : DHCPHeader :=
  { OP := b.getD 0 0
    HType := b.getD 1 0
    HLen := b.getD 2 0
    HOps := b.getD 3 0
    Xid := readBE32 b 4
    Secs := readBE16 b 8
    Flags := readBE16 b 10
    CIAddr := goSlice b 12 16
    YIAddr := goSlice b 16 20
    SIAddr := goSlice b 20 24
    GIAddr := goSlice b 24 28
    CHAddr := goSlice b 28 44 }

/-- Modelled from the spec: `(eth.DHCPHeader).Put`, the external header
encoder, serializing the 44 fixed header bytes in the standard BOOTP layout. -/
def putDHCPHeader (h : DHCPHeader) : List Nat :=
  [h.OP, h.HType, h.HLen, h.HOps] ++ be32 h.Xid ++ be16 h.Secs ++ be16 h.Flags ++
    h.CIAddr ++ h.YIAddr ++ h.SIAddr ++ h.GIAddr ++ h.CHAddr

/-- Modelled from the spec: the `eth.DHCP_MessageType` option tag
(standard DHCP option code 53; spec section 6 lists the recognized tags). -/
def DHCP_MessageType : Nat := 53

/-- Modelled from the spec: the `eth.DHCP_ParameterRequestList` option tag
(standard DHCP option code 55). -/
def DHCP_ParameterRequestList : Nat := 55

/-- Modelled from the spec: the `eth.DHCP_RequestedIPaddress` option tag
(standard DHCP option code 50). -/
def DHCP_RequestedIPaddress : Nat := 50

/-- Modelled from the spec: the DHCP client states `dhcpStateNone` and
`dhcpStateWaitOffer` are constants declared outside the provided sources; a
fresh (zero-valued) client record is in state None, so None is 0. -/
def dhcpStateNone : Nat := 0

/-- Modelled from the spec: see `dhcpStateNone`. -/
def dhcpStateWaitOffer : Nat := 1

/-- A `(tag, data)` DHCP option as passed to the parse callback. -/
structure dhcpOption where
  Opt : Nat
  Data : List Nat
deriving DecidableEq, Repr

/-- Outcome of the tag/length/value option scan inside `parseDHCP`.
`fuelOut` is the structural-recursion fuel running out; the fuel passed by
`parseDHCP` is shown sufficient (`scanOptions_fuel_sufficient`), so it never
arises on any call the embedded code makes. -/
inductive ScanOut (σ : Type) where
  | ok (s : σ)
  | failed (s : σ) (e : GoError)
  | crash
  | fuelOut
deriving DecidableEq, Repr

/-- The option-scan loop of `parseDHCP`, translated statement by statement.
The visit callback is a Go closure over mutable locals; it is modelled as a
state-passing function `fn : σ → dhcpOption → σ × Option GoError`.
The loop guard is exactly the source's
`ptr+1 < len(incpayload) && int(incpayload[ptr+1]) < len(incpayload)`;
the slice `incpayload[ptr+2 : ptr+2+int(optlen)]` is in Go a runtime panic
(or, when the backing array is larger, an out-of-bounds read) whenever
`ptr+2+optlen` exceeds the buffer length, modelled as `crash`.  Each loop
iteration consumes one unit of fuel; since `ptr` strictly grows by at least 2
per iteration and stays below the buffer length, any fuel of at least half the
buffer length is enough. -/
def scanOptions {σ : Type} (buf : List Nat)
    (fn : σ → dhcpOption → σ × Option GoError) :
    Nat → σ → Nat → ScanOut σ
  | 0, _, _ => .fuelOut
  | fuel + 1, s, ptr =>
    if ptr + 1 < buf.length ∧ buf.getD (ptr + 1) 0 < buf.length then
      if buf.getD ptr 0 = 255 then .ok s
      else
        let optlen := buf.getD (ptr + 1) 0
        if ptr + 2 + optlen ≤ buf.length then
          match fn s ⟨buf.getD ptr 0, goSlice buf (ptr + 2) (ptr + 2 + optlen)⟩ with
          | (s1, some e) => .failed s1 e
          | (s1, none) => scanOptions buf fn fuel s1 (ptr + optlen + 2)
        else .crash
    else .ok s

/-- The fuel `parseDHCP` hands to the scan loop is sufficient: the loop never
hits the `fuelOut` marker when the remaining distance to the buffer end is
less than twice the fuel (each iteration advances `ptr` by at least 2). -/
theorem scanOptions_fuel_sufficient {σ : Type} (buf : List Nat)
    (fn : σ → dhcpOption → σ × Option GoError) :
    ∀ fuel s ptr, buf.length - ptr < 2 * fuel →
      scanOptions buf fn fuel s ptr ≠ .fuelOut := by
  intro fuel
  induction fuel with
  | zero => intro s ptr hlt; omega
  | succ n ih =>
    intro s ptr hlt
    rw [scanOptions]
    dsimp only
    split
    · rename_i hguard
      split
      · intro hcon; cases hcon
      · split
        · rename_i hle
          rcases hfn : fn s ⟨buf.getD ptr 0,
              goSlice buf (ptr + 2) (ptr + 2 + buf.getD (ptr + 1) 0)⟩ with ⟨s1, e⟩
          cases e with
          | some emsg => simp [hfn]
          | none =>
            simp only [hfn]
            exact ih s1 (ptr + buf.getD (ptr + 1) 0 + 2) (by omega)
        · intro hcon; cases hcon
    · intro hcon; cases hcon

/-- Outcome of `parseDHCP`: the decoded header together with the callback
state, an error, or a runtime panic. -/
inductive ParseOut (σ : Type) where
  | okOut (hdr : DHCPHeader) (s : σ)
  | errOut (hdr : DHCPHeader) (s : σ) (e : GoError)
  | crash
deriving DecidableEq, Repr

/-- Translated from `parseDHCP` in `src/stacks/dhcp_server.go`: header length
check, header decode, then the option scan starting after the fixed header,
the legacy server-name and boot-file regions and the 4-byte magic cookie.
(The `fn == nil` guard of the source is a programmer-precondition check; the
model passes the callback as a total function.)  The scan fuel is the buffer
length, which `scanOptions_fuel_sufficient` shows can never run out here
(the scan starts at offset 240 of a buffer longer than 240 bytes), so the
`fuelOut` case of the match is dead code. -/
def parseDHCP {σ : Type} (incpayload : List Nat)
    (fn : σ → dhcpOption → σ × Option GoError) (s0 : σ) : ParseOut σ :=
  if incpayload.length < SizeDHCPHeader then
    .errOut zeroDHCPHeader s0 "short payload to parse DHCP"
  else
    let hdr := DecodeDHCPHeader incpayload
    if SizeDHCPHeader + 64 + 128 + 4 ≥ incpayload.length then
      .errOut hdr s0 "short payload to parse DHCP options"
    else
      match scanOptions incpayload fn incpayload.length s0
          (SizeDHCPHeader + 64 + 128 + 4) with
      | .ok s => .okOut hdr s
      | .failed s e => .errOut hdr s e
      | .crash => .crash
      | .fuelOut => .crash

/-- The per-client DHCP record `dhcpclient`. -/
structure dhcpclient where
  addr : NetipAddr
  state : Nat
  port : Nat
  requestlist : List Nat
deriving DecidableEq, Repr

/-- The zero value of `dhcpclient`, as produced by reading a missing key of
the `hosts` map. -/
def zeroClient : dhcpclient := ⟨zeroAddr, 0, 0, List.replicate 10 0⟩

/-- The `hosts` map, keyed by the 6-byte client hardware address, modelled as
an association list (a Go map read of a missing key yields the zero value and
does not insert). -/
def lookupHost (hosts : List (List Nat × dhcpclient)) (mac : List Nat) : dhcpclient :=
  match hosts.find? (fun kv => kv.1 = mac) with
  | some kv => kv.2
  | none => zeroClient

/-- Go map assignment `d.hosts[mac] = client`: replace an existing binding or
append a new one. -/
def setHost (hosts : List (List Nat × dhcpclient)) (mac : List Nat)
    (c : dhcpclient) : List (List Nat × dhcpclient) :=
  if hosts.any (fun kv => kv.1 = mac) then
    hosts.map (fun kv => if kv.1 = mac then (mac, c) else kv)
  else hosts ++ [(mac, c)]

/-- The `DHCPServer` struct. -/
structure DHCPServer where
  mac : List Nat
  nextAddr : NetipAddr
  siaddr : NetipAddr
  port : Nat
  hosts : List (List Nat × dhcpclient)
deriving DecidableEq, Repr

/-- Translated from `NewDHCPServer`. -/
def NewDHCPServer (port : Nat) (mac : List Nat) (siaddr : NetipAddr) : DHCPServer :=
  { port := port, mac := mac, siaddr := siaddr, nextAddr := zeroAddr, hosts := [] }

/-- Translated from `(*DHCPServer).next`: the requested address when it is not
the all-zero address, else the fixed fallback `192.168.1.2`. -/
def DHCPServer.next (_d : DHCPServer) (requested : List Nat) : List Nat :=
  if requested ≠ [0, 0, 0, 0] then requested else [192, 168, 1, 2]

/-- The fields of the external `eth.EthernetHeader` codec that the DHCP
response construction writes. -/
structure EthernetFields where
  Destination : List Nat
  Source : List Nat
  SizeOrEtherType : Nat
deriving DecidableEq, Repr

/-- The fields of the external `eth.IPv4Header` codec that the DHCP response
construction writes. -/
structure IPv4Fields where
  VersionAndIHL : Nat
  ToS : Nat
  TotalLength : Nat
  ID : Nat
  Flags : Nat
  TTL : Nat
  Protocol : Nat
  Checksum : Nat
  Source : List Nat
  Destination : List Nat
deriving DecidableEq, Repr

/-- The fields of the external `eth.UDPHeader` codec. -/
structure UDPFields where
  SourcePort : Nat
  DestinationPort : Nat
  Length : Nat
  Checksum : Nat
deriving DecidableEq, Repr

/-- Modelled from the spec: `prand16`, the injected pseudo-random IP
identifier generator (spec section 1: random ID generation is an external
utility).  Modelled as a fixed xorshift-style scramble; no claim depends on
the values it produces. -/
def prand16 (x : Nat) : Nat :=
  let s1 := (x ^^^ (x <<< 7)) % 65536
  let s2 := s1 ^^^ (s1 >>> 9)
  (s2 ^^^ (s2 <<< 8)) % 65536

/-- Modelled from the spec: `(eth.IPv4Header).CalculateChecksum`, an external
checksum computation (spec section 1 lists checksum computation as out of
scope); its value does not affect any claim. -/
def ipCalculateChecksum (_h : IPv4Fields) : Nat := 0

/-- Modelled from the spec: `(eth.UDPHeader).CalculateChecksumIPv4`, an
external checksum computation; its value does not affect any claim. -/
def udpCalculateChecksumIPv4 (_u : UDPFields) (_h : IPv4Fields)
    (_payload : List Nat) : Nat := 0

/-- Modelled from the spec: a `UDPPacket` (the UDP packet-buffer type lives in
a source file that was not provided; spec section 3 and 4.2 describe the
PacketBuffer model).  `Rx` is the receive timestamp with the same sentinels as
`TCPPacket`; per section 4.2 `Payload()` is `None` when there is no packet or
the header geometry is invalid, else the payload slice resolved by the
geometry — the resolved slice and the geometry validity bit are carried
directly (`payloadData`, `geomOk`). -/
structure UDPPacket where
  Rx : Nat
  Eth : EthernetFields
  IP : IPv4Fields
  UDP : UDPFields
  geomOk : Bool
  payloadData : List Nat
deriving DecidableEq, Repr

/-- Modelled from the spec (section 4.2): `HasPacket` of the UDP packet
buffer, true iff the timestamp is neither the zero nor the forced sentinel. -/
def UDPPacket.HasPacket (p : UDPPacket) : Bool :=
  p.Rx ≠ forcedTime ∧ p.Rx ≠ 0

/-- Modelled from the spec (section 4.2): `Payload` of the UDP packet buffer:
the resolved payload slice, or the nil slice (here `[]`, observationally the
same for the embedded callers, which only take its length and scan it) when
there is no packet or the geometry is invalid. -/
def UDPPacket.Payload (p : UDPPacket) : List Nat :=
  if p.HasPacket ∧ p.geomOk then p.payloadData else []

/-- Modelled from the spec: `(*UDPPacket).PutHeaders`, serializing the
Ethernet, IPv4 and UDP fixed headers (42 bytes) in their standard layouts
(header encode is an external collaborator, spec section 1). -/
def UDPPacket.PutHeaders (p : UDPPacket) : List Nat :=
  (p.Eth.Destination ++ p.Eth.Source ++ be16 p.Eth.SizeOrEtherType) ++
  ([p.IP.VersionAndIHL, p.IP.ToS] ++ be16 p.IP.TotalLength ++ be16 p.IP.ID ++
    be16 p.IP.Flags ++ [p.IP.TTL, p.IP.Protocol] ++ be16 p.IP.Checksum ++
    p.IP.Source ++ p.IP.Destination) ++
  (be16 p.UDP.SourcePort ++ be16 p.UDP.DestinationPort ++ be16 p.UDP.Length ++
    be16 p.UDP.Checksum)

/-- Translated from `(*DHCPServer).setResponseUDP`: fills the Ethernet, IPv4
and UDP headers of the response packet.  `d.siaddr.As4()` is called here
again; `none` models its panic on a non-IPv4 server address. -/
def DHCPServer.setResponseUDP (d : DHCPServer) (clientport : Nat)
    (packet : UDPPacket) (payload : List Nat) : Option UDPPacket :=
  match d.siaddr.As4 with
  | none => none
  | some srv4 =>
    let eth1 : EthernetFields :=
      { Destination := List.replicate 6 255, Source := d.mac,
        SizeOrEtherType := 2048 }
    let ip1 : IPv4Fields :=
      { packet.IP with
        Destination := [0, 0, 0, 0], Source := srv4, Protocol := 17, TTL := 64,
        ID := prand16 packet.IP.ID, VersionAndIHL := 5,
        TotalLength := (4 * 5 + SizeUDPHeader + payload.length) % 65536,
        ToS := 192, Flags := 0 }
    let ip2 := { ip1 with Checksum := ipCalculateChecksum ip1 }
    let udp1 : UDPFields :=
      { packet.UDP with
        DestinationPort := clientport, SourcePort := d.port,
        Length := (ip2.TotalLength + 65536 - 4 * 5) % 65536 }
    let udp2 := { udp1 with Checksum := udpCalculateChecksumIPv4 udp1 ip2 payload }
    some { packet with Eth := eth1, IP := ip2, UDP := udp2 }

/-- Modelled from the spec (section 4.4): `encodeDHCPOption`, declared in a
stacks source file that was not provided: writes `tag, length, data...` into
the destination at the given offset and advances by the bytes written. -/
def encodeDHCPOption (resp : List Nat) (ptr : Nat) (opt : dhcpOption) :
    List Nat × Nat :=
  (putAt resp ptr ([opt.Opt, opt.Data.length] ++ opt.Data), 2 + opt.Data.length)

/-- The option-encoding loop of `HandleUDP`:
`for _, opt := range Options ; ptr += encodeDHCPOption(resp[ptr:], opt)`. -/
def encodeOptionsAt (resp : List Nat) (ptr : Nat) :
    List dhcpOption → List Nat × Nat
  | [] => (resp, ptr)
  | opt :: rest =>
    let r := encodeDHCPOption resp ptr opt
    encodeOptionsAt r.1 (ptr + r.2) rest

/-- Outcome of one `HandleUDP` call: the returned `(n, err)` pair together
with the server, response buffer and packet states after the call, or a Go
runtime panic (`crash`). -/
inductive UDPHandleOut where
  | ret (n : Nat) (err : Option GoError) (d : DHCPServer) (resp : List Nat)
      (packet : UDPPacket)
  | crash (msg : String)
deriving DecidableEq, Repr

/-- The DHCP offset constant of `HandleUDP`:
`eth.SizeEthernetHeader + eth.SizeIPv4Header + eth.SizeUDPHeader`. -/
def dhcpOffset : Nat := SizeEthernetHeader + SizeIPv4Header + SizeUDPHeader

/-- `sizeDHCPTotal = eth.SizeDHCPHeader + sizeSName + sizeFILE + sizeOptions`. -/
def sizeDHCPTotal : Nat := SizeDHCPHeader + 64 + 128 + 312

/-- `optionsStart = dhcpOffset + eth.SizeDHCPHeader + sizeSName + sizeFILE`. -/
def optionsStart : Nat := dhcpOffset + SizeDHCPHeader + 64 + 128

/-- The parse callback closed over by `HandleUDP` (the anonymous function
passed to `parseDHCP`), as a state-passing function over the mutable locals
`client` and `msgType`. -/
def handleUDPVisit (st : dhcpclient × Nat) (opt : dhcpOption) :
    (dhcpclient × Nat) × Option GoError :=
  let client := st.1
  let msgType := st.2
  if opt.Opt = DHCP_MessageType then
    if opt.Data.length = 1 then ((client, opt.Data.getD 0 0), none)
    else ((client, msgType), none)
  else if opt.Opt = DHCP_ParameterRequestList then
    (({ client with
        requestlist := opt.Data.take 10 ++ List.replicate (10 - opt.Data.length) 0 },
      msgType), none)
  else if opt.Opt = DHCP_RequestedIPaddress then
    if opt.Data.length = 4 ∧ client.state = dhcpStateNone then
      (({ client with addr := AddrFrom4 opt.Data }, msgType), none)
    else ((client, msgType), none)
  else ((client, msgType), none)

/-- The response-construction tail of `HandleUDP` (from `d.hosts[mac] = client`
to the final `return`): store the client record, zero the BOOTP/options region,
write the DHCP header, magic cookie, encoded options and end marker, fill the
Ethernet/IPv4/UDP headers and serialize them.  The Go slice expression
`resp[dhcpOffset : dhcpOffset+sizeDHCPTotal]` panics when the buffer is
shorter than that bound. -/
def dhcpBuildAndSend (d : DHCPServer) (resp : List Nat) (packet : UDPPacket)
    (mac : List Nat) (hdr : DHCPHeader) (client : dhcpclient)
    (opts : List dhcpOption) : UDPHandleOut :=
  let hosts1 := setHost d.hosts mac client
  let r1 := zeroFrom resp (dhcpOffset + 14)
  let r2 := putAt r1 dhcpOffset (putDHCPHeader hdr)
  let r3 := putAt r2 optionsStart [99, 130, 83, 99]
  let er := encodeOptionsAt r3 (optionsStart + 4) opts
  if er.2 ≥ er.1.length then .crash "index out of range"
  else
    let r5 := putAt er.1 er.2 [255]
    if r5.length < dhcpOffset + sizeDHCPTotal then .crash "slice bounds out of range"
    else
      let payload := goSlice r5 dhcpOffset (dhcpOffset + sizeDHCPTotal)
      match d.setResponseUDP client.port packet payload with
      | none => .crash "As4 called on IP zero value"
      | some packet1 =>
        if r5.length < SizeEthernetHeader + SizeIPv4Header + SizeUDPHeader then
          .crash "short udpPacket buffer"
        else
          let r6 := putAt r5 0 packet1.PutHeaders
          .ret (dhcpOffset + sizeDHCPTotal) none { d with hosts := hosts1 } r6 packet1

/-- The message-type switch of `HandleUDP` together with the
`if err != nil ; return 0, nil` that follows it.  On Discover the client's
(possibly zero) address goes through `netip.Addr.As4`, whose panic on the zero
`Addr` is the `crash` outcome; `d.siaddr.As4()` is evaluated on this path by
the assignment to `rcvHdr.SIAddr`. -/
def dhcpRespond (d : DHCPServer) (resp : List Nat) (packet : UDPPacket)
    (mac : List Nat) (rcvHdr : DHCPHeader) (client : dhcpclient)
    (msgType : Nat) : UDPHandleOut :=
  if msgType = 1 then
    if client.state ≠ dhcpStateNone then .ret 0 none d resp packet
    else
      match client.addr.As4 with
      | none => .crash "As4 called on IP zero value"
      | some req4 =>
        match d.siaddr.As4 with
        | none => .crash "As4 called on IP zero value"
        | some srv4 =>
          let hdr1 := { rcvHdr with YIAddr := d.next req4, SIAddr := srv4 }
          let client1 := { client with port := packet.UDP.SourcePort,
                                       state := dhcpStateWaitOffer }
          dhcpBuildAndSend d resp packet mac hdr1 client1
            [⟨DHCP_MessageType, [2]⟩]
  else if msgType = 3 then
    if client.state ≠ dhcpStateWaitOffer then .ret 0 none d resp packet
    else dhcpBuildAndSend d resp packet mac rcvHdr client [⟨DHCP_MessageType, [5]⟩]
  else dhcpBuildAndSend d resp packet mac rcvHdr client []

/-- Translated from `(*DHCPServer).HandleUDP`, statement by statement: the two
length guards, the no-packet early return, the parse with the closure over
`client` and `msgType`, the parse-error / other-server guard (with Go's
short-circuit evaluation: `d.siaddr.As4()` is only reached when the parse
succeeded and the message type is not Discover), then the switch and response
construction. -/
def DHCPServer.HandleUDP (d : DHCPServer) (resp : List Nat) (packet : UDPPacket) :
    UDPHandleOut :=
  let hasPacket := packet.HasPacket
  let incpayload := packet.Payload
  if resp.length < sizeDHCPTotal then
    .ret 0 (some "short payload to marshall DHCP") d resp packet
  else if hasPacket = true ∧ incpayload.length < SizeDHCPHeader then
    .ret 0 (some "short payload to parse DHCP") d resp packet
  else if hasPacket = false then
    .ret 0 none d resp packet
  else
    let mac := packet.Eth.Source
    let client0 := lookupHost d.hosts mac
    match parseDHCP incpayload handleUDPVisit (client0, 0) with
    | .crash => .crash "slice bounds out of range"
    | .errOut _ _ e => .ret 0 (some e) d resp packet
    | .okOut rcvHdr st =>
      if st.2 ≠ 1 then
        match d.siaddr.As4 with
        | none => .crash "As4 called on IP zero value"
        | some srv4 =>
          if rcvHdr.SIAddr ≠ srv4 then .ret 0 none d resp packet
          else dhcpRespond d resp packet mac rcvHdr st.1 st.2
      else dhcpRespond d resp packet mac rcvHdr st.1 st.2

/-- Projection: the byte count of a returning (non-panicking) `HandleUDP`. -/
def UDPHandleOut.retN : UDPHandleOut → Option Nat
  | .ret n _ _ _ _ => some n
  | .crash _ => none

/-- C1: for every value of the IP IHL field, the TCP data-offset field, the IP
total-length field and every data capacity, the geometry resolver `dataPtrs`
either returns three non-negative offsets satisfying
`tcpOptStart ≤ payloadStart ≤ payloadEnd ≤ cap`, or the single sentinel
`(-1, -1, -1)` with no partial results. -/
theorem C1_dataPtrs_consistent_or_invalid (ihl off tot cap : Nat) :
    (0 ≤ (dataPtrs ihl off tot cap).2.2 ∧
     0 ≤ (dataPtrs ihl off tot cap).1 ∧
     0 ≤ (dataPtrs ihl off tot cap).2.1 ∧
     (dataPtrs ihl off tot cap).2.2 ≤ (dataPtrs ihl off tot cap).1 ∧
     (dataPtrs ihl off tot cap).1 ≤ (dataPtrs ihl off tot cap).2.1 ∧
     (dataPtrs ihl off tot cap).2.1 ≤ (cap : Int)) ∨
    dataPtrs ihl off tot cap = (-1, -1, -1) := by
  unfold dataPtrs
  dsimp only
  split
  · right; rfl
  · rename_i hcond
    push_neg at hcond
    left
    simp only [SizeIPv4Header, SizeTCPHeader] at hcond ⊢
    refine ⟨by omega, by omega, by omega, by omega, by omega, by omega⟩

/-- The 242-byte options buffer of the C2 failing input: 240 zero bytes of
fixed header, server-name, boot-file and cookie regions, then an option tag
byte `53` whose length byte `4` passes the scan's guard (`4 < 242`) while only
0 data bytes remain in the buffer. -/
def c2buf : List Nat := List.replicate 240 0 ++ [53, 4]

/-- C2 (code bug): the DHCP option scan does slice past the end of the input
buffer.  On `c2buf` the loop guard `ptr+1 < len && int(buf[ptr+1]) < len`
holds at `ptr = 240` (the length byte 4 is compared against the whole buffer
length 242, not the 0 remaining bytes), so the source evaluates
`incpayload[242:246]` on a 242-byte buffer — an out-of-range slice (runtime
panic, or a read beyond the payload when the backing array is larger),
modelled as the `crash` outcome. -/
theorem C2_option_scan_out_of_range :
    parseDHCP c2buf (fun (s : Nat) _ => (s, none)) 0 = ParseOut.crash := by decide

/-- The DHCP server instance used by the concrete DHCP scenarios:
UDP port 67, MAC `02:02:02:02:02:02`, server address `192.168.1.1`. -/
def srv0 : DHCPServer := NewDHCPServer 67 [2, 2, 2, 2, 2, 2] (AddrFrom4 [192, 168, 1, 1])

/-- A 244-byte Discover payload with a message-type option (tag 53, value 1)
and no Requested-IP-Address option. -/
def c3payload : List Nat := List.replicate 240 0 ++ [53, 1, 1, 255]

/-- A received UDP packet from MAC `AA:BB:CC:DD:EE:FF` carrying `c3payload`. -/
def c3packet : UDPPacket :=
  { Rx := 2
    Eth := { Destination := List.replicate 6 255,
             Source := [170, 187, 204, 221, 238, 255], SizeOrEtherType := 2048 }
    IP := { VersionAndIHL := 5, ToS := 0, TotalLength := 272, ID := 0, Flags := 0,
            TTL := 64, Protocol := 17, Checksum := 0, Source := [0, 0, 0, 0],
            Destination := [255, 255, 255, 255] }
    UDP := { SourcePort := 68, DestinationPort := 67, Length := 252, Checksum := 0 }
    geomOk := true
    payloadData := c3payload }

/-- A 590-byte all-zero response buffer (large enough for the full response). -/
def c3resp : List Nat := List.replicate 590 0

/-- C3 (code bug): a Discover from a client in state None that carries no
Requested-IP-Address option leaves the client record's address at the zero
`netip.Addr`; the source then evaluates `d.next(client.addr.As4())`, and
`netip.Addr.As4` panics on the zero `Addr` — instead of assigning the fallback
address `192.168.1.2` and building an Offer as the claim states. -/
theorem C3_discover_zero_addr_panic :
    srv0.HandleUDP c3resp c3packet =
      UDPHandleOut.crash "As4 called on IP zero value" := by decide

/-- A 244-byte payload whose DHCP header's SIAddr bytes (offsets 20..23) match
the server address `192.168.1.1` and whose only option is message type 2
(Offer) — a type this server never expects from a client, hence wrong for
every client state. -/
def c4xpayload : List Nat :=
  List.replicate 20 0 ++ [192, 168, 1, 1] ++ List.replicate 216 0 ++ [53, 1, 2, 255]

/-- The packet carrying `c4xpayload`. -/
def c4xpacket : UDPPacket := { c3packet with payloadData := c4xpayload }

/-- C4 counterexample: the claim as stated is false.  The inbound message
parses without error, its message type 2 is wrong for the client's state
(neither a Discover in None nor a Request in WaitingForOffer), and its
server-address field matches this server — yet `HandleUDP` does not return
zero bytes: the switch has no default case, so the message falls through to
response construction and 590 bytes are written. -/
theorem C4_counterexample_fallthrough_response :
    parseDHCP c4xpacket.Payload handleUDPVisit
        (lookupHost srv0.hosts c4xpacket.Eth.Source, 0)
      = ParseOut.okOut (DecodeDHCPHeader c4xpayload) (zeroClient, 2) ∧
    ¬ ((2 = 1 ∧ zeroClient.state = dhcpStateNone) ∨
       (2 = 3 ∧ zeroClient.state = dhcpStateWaitOffer)) ∧
    (DecodeDHCPHeader c4xpayload).SIAddr = srv0.siaddr.a4 ∧
    UDPHandleOut.retN (srv0.HandleUDP c3resp c4xpacket) = some 590 := by decide

/-- C4 (amended): for every inbound DHCP message that parses without error,
`HandleUDP` returns zero bytes written and a nil error whenever either
(a) the message type is Discover and the client's state is not None, or the
message type is Request and the client's state is not WaitingForOffer, or
(b) the message type is not Discover and the received header's server-address
field differs from this server's own address.  (Message types other than
Discover and Request with a matching server address fall through the switch
and produce a response — see the counterexample.) -/
theorem C4_silent_drop_wrong_type_or_other_server
    (d : DHCPServer) (resp : List Nat) (packet : UDPPacket)
    (hdr : DHCPHeader) (client : dhcpclient) (msgType : Nat)
    (hresp : sizeDHCPTotal ≤ resp.length)
    (hhas : packet.HasPacket = true)
    (hlen : SizeDHCPHeader ≤ packet.Payload.length)
    (hsrv : d.siaddr.is4 = true)
    (hparse : parseDHCP packet.Payload handleUDPVisit
        (lookupHost d.hosts packet.Eth.Source, 0)
        = ParseOut.okOut hdr (client, msgType))
    (hcond : (msgType = 1 ∧ client.state ≠ dhcpStateNone) ∨
             (msgType = 3 ∧ client.state ≠ dhcpStateWaitOffer) ∨
             (msgType ≠ 1 ∧ hdr.SIAddr ≠ d.siaddr.a4)) :
    d.HandleUDP resp packet = UDPHandleOut.ret 0 none d resp packet := by
  unfold DHCPServer.HandleUDP
  rw [if_neg (by omega), if_neg (by rw [hhas]; omega), if_neg (by rw [hhas]; simp)]
  dsimp only
  rw [hparse]
  dsimp only
  have hAs4 : d.siaddr.As4 = some d.siaddr.a4 := by
    unfold NetipAddr.As4; rw [hsrv]; simp
  rcases hcond with ⟨hm, hs⟩ | ⟨hm, hs⟩ | ⟨hm, hs⟩
  · subst hm
    rw [if_neg (by simp)]
    unfold dhcpRespond
    rw [if_pos rfl, if_pos hs]
  · subst hm
    rw [if_pos (by omega), hAs4]
    dsimp only
    by_cases hsi : hdr.SIAddr = d.siaddr.a4
    · rw [if_neg (by simpa using hsi)]
      unfold dhcpRespond
      rw [if_neg (by omega), if_pos rfl, if_pos hs]
    · rw [if_pos (by simpa using hsi)]
  · rw [if_pos (by simpa using hm), hAs4]
    dsimp only
    rw [if_pos (by simpa using hs)]

/-- A 244-byte Request payload (message type 3) whose SIAddr matches the
server; the sending MAC has never sent a Discover, so its record is in state
None, not WaitingForOffer. -/
def c4wpayload : List Nat :=
  List.replicate 20 0 ++ [192, 168, 1, 1] ++ List.replicate 216 0 ++ [53, 1, 3, 255]

/-- The packet carrying `c4wpayload`. -/
def c4wpacket : UDPPacket := { c3packet with payloadData := c4wpayload }

/-- C4 witness: a Request sent before any Discover is silently dropped —
zero bytes, nil error, with the server and buffers echoed back unchanged. -/
theorem C4_silent_drop_witness :
    srv0.HandleUDP c3resp c4wpacket = UDPHandleOut.ret 0 none srv0 c3resp c4wpacket :=
  C4_silent_drop_wrong_type_or_other_server srv0 c3resp c4wpacket
    (DecodeDHCPHeader c4wpayload) zeroClient 3
    (by decide) (by decide) (by decide) (by decide) (by decide)
    (Or.inr (Or.inl ⟨rfl, by decide⟩))

/-- C5: `Payload()` returns None whenever `HasPacket()` is false or the header
geometry is invalid, and otherwise returns exactly the slice
`data[payloadStart:payloadEnd]`; and `HasPacket()` is true iff the receive
timestamp is neither the zero sentinel nor the forced sentinel. -/
theorem C5_payload_contract (p : TCPPacket) :
    (p.HasPacket = true ↔ (p.Rx ≠ 0 ∧ p.Rx ≠ forcedTime)) ∧
    (p.HasPacket = false → p.Payload = none) ∧
    (p.dataPtrs = (-1, -1, -1) → p.Payload = none) ∧
    (∀ ps pe os : Int, p.HasPacket = true → p.dataPtrs = (ps, pe, os) →
       0 ≤ ps → p.Payload = some (goSlice p.data ps.toNat pe.toNat)) := by
  refine ⟨?_, ?_, ?_, ?_⟩
  · unfold TCPPacket.HasPacket
    constructor
    · intro h; exact ⟨by simpa using (of_decide_eq_true h).2, by simpa using (of_decide_eq_true h).1⟩
    · intro h; exact decide_eq_true ⟨h.2, h.1⟩
  · intro h
    unfold TCPPacket.Payload
    rw [h]; simp
  · intro h
    unfold TCPPacket.Payload
    rcases hb : p.HasPacket with _ | _
    · simp
    · rw [h]; simp
  · intro ps pe os hh hptr hpos
    unfold TCPPacket.Payload
    rw [hh, hptr]
    simp only [Bool.true_eq_false, not_true_eq_false]
    rw [if_neg (by simp), if_neg (by omega)]

/-- A received TCP packet with valid geometry: IHL 5, data offset 20,
total length 45, so the payload is bytes 0..5 of the data region. -/
def tcpP5 : TCPPacket :=
  { Rx := 2, IP := { ihl := 5, TotalLength := 45 }, TCP := { offsetInBytes := 20 },
    data := [9, 8, 7, 6, 5] }

/-- C5 witness: the payload contract applied at a concrete valid packet. -/
theorem C5_payload_contract_witness :
    tcpP5.Payload = some (goSlice tcpP5.data 0 5) :=
  (C5_payload_contract tcpP5).2.2.2 0 5 0 (by decide) (by decide) (by decide)

/-- A socket whose slot holds the forced sentinel and whose handler (oracle)
returns `(7, none)`. -/
def sock6 : tcpSocket :=
  { LastRx := 0, handlerNil := false, handlerRes := (7, none), Port := 80,
    packet := { Rx := forcedTime, IP := { ihl := 5, TotalLength := 40 },
                TCP := { offsetInBytes := 20 }, data := [] },
    tcbRecvErr := none, tcbPendingOk := false }

/-- C6: dispatching a socket whose slot holds the forced-trigger sentinel
(and whose handler is non-nil) invokes the stored handler exactly once and
leaves the slot's timestamp at the zero sentinel, regardless of the `(n, err)`
the handler returned. -/
theorem C6_forced_dispatch_once (u : tcpSocket)
    (hh : u.handlerNil = false) (hf : u.packet.Rx = forcedTime) :
    u.HandleEth = some (u.handlerRes.1, u.handlerRes.2,
      { u with packet := { u.packet with Rx := 0 } }, 1) := by
  have hnp : u.packet.HasPacket = false := by
    unfold TCPPacket.HasPacket
    rw [hf]
    simp
  unfold tcpSocket.HandleEth
  rw [hh, hnp]
  simp

/-- C6 witness: the forced-dispatch theorem applied at `sock6`. -/
theorem C6_forced_dispatch_once_witness :
    sock6.HandleEth = some (sock6.handlerRes.1, sock6.handlerRes.2,
      { sock6 with packet := { sock6.packet with Rx := 0 } }, 1) :=
  C6_forced_dispatch_once sock6 rfl rfl

/-- The closed socket (port 0, empty slot) of the C7 counterexample. -/
def sock7 : tcpSocket := { sock6 with Port := 0, packet := { sock6.packet with Rx := 0 } }

/-- C7 counterexample: `forceResponse` on a closed socket (port 0) with an
empty slot returns true and plants the forced sentinel, although the socket is
not Open-Empty — refuting the claimed "if and only if the socket is
Open-Empty (port nonzero and slot timestamp zero)". -/
theorem C7_counterexample_closed_socket :
    (sock7.forceResponse).1 = true ∧
    (sock7.forceResponse).2.packet.Rx = forcedTime ∧
    ¬ (sock7.Port ≠ 0 ∧ sock7.packet.Rx = 0) := by decide

/-- C7 (amended): `forceResponse` returns true and plants the forced sentinel
if and only if nothing is pending handling (i.e. the port is zero or the slot
timestamp is zero) — which on an open socket is exactly Open-Empty — and
returns false, leaving the socket untouched, when something is already
pending.  A freshly opened socket reports `IsPendingHandling() == false`, and
after one successful `forceResponse` on an open socket a second call before
dispatch returns false. -/
theorem C7_mark_pending_amended :
    (∀ u : tcpSocket,
      ((u.forceResponse).1 = true ↔ u.IsPendingHandling = false) ∧
      (u.IsPendingHandling = false →
        u.forceResponse = (true, { u with packet := { u.packet with Rx := forcedTime } })) ∧
      (u.IsPendingHandling = true → u.forceResponse = (false, u))) ∧
    (∀ (u : tcpSocket) (port : Nat) (hres : Int × Option GoError) (s : tcpSocket),
      u.Open port false hres = some s → s.IsPendingHandling = false) ∧
    (∀ u : tcpSocket, u.Port ≠ 0 → (u.forceResponse).1 = true →
      ((u.forceResponse).2.forceResponse).1 = false) := by
  refine ⟨?_, ?_, ?_⟩
  · intro u
    unfold tcpSocket.forceResponse
    rcases hp : u.IsPendingHandling with _ | _
    · simp
    · simp
  · intro u port hres s hopen
    unfold tcpSocket.Open at hopen
    by_cases hc : port = 0 ∨ (false : Bool) = true
    · rw [if_pos hc] at hopen
      cases hopen
    · rw [if_neg hc] at hopen
      cases hopen
      simp [tcpSocket.IsPendingHandling]
  · intro u hport hfirst
    have hpend : u.IsPendingHandling = false := by
      rcases hp : u.IsPendingHandling with _ | _
      · rfl
      · exfalso
        unfold tcpSocket.forceResponse at hfirst
        rw [hp] at hfirst
        simp at hfirst
    have hsecond : (u.forceResponse).2
        = { u with packet := { u.packet with Rx := forcedTime } } := by
      unfold tcpSocket.forceResponse
      rw [hpend]
      simp
    rw [hsecond]
    have hpend2 : ({ u with packet := { u.packet with Rx := forcedTime } }
        : tcpSocket).IsPendingHandling = true := by
      unfold tcpSocket.IsPendingHandling
      exact decide_eq_true ⟨hport, show forcedTime ≠ 0 by decide⟩
    unfold tcpSocket.forceResponse
    rw [hpend2]
    simp

/-- An open socket with an empty slot. -/
def sock8 : tcpSocket := { sock6 with packet := { sock6.packet with Rx := 0 } }

/-- C7 witness: the amended property applied at an open, empty socket: the
first `forceResponse` succeeds, a second call before dispatch returns false. -/
theorem C7_mark_pending_witness :
    (sock8.forceResponse).1 = true ∧
    ((sock8.forceResponse).2.forceResponse).1 = false :=
  ⟨((C7_mark_pending_amended.1 sock8).1).mpr (by decide),
    C7_mark_pending_amended.2.2 sock8 (by decide)
      (((C7_mark_pending_amended.1 sock8).1).mpr (by decide))⟩

/-- A socket with a real pending packet whose control-block receive step
reports an error. -/
def sockE : tcpSocket :=
  { sock6 with packet := { sock6.packet with Rx := 5 },
               tcbRecvErr := some "segment out of window" }

/-- C8: when the slot holds a real (non-forced, non-empty) packet and the
control block's `Recv` returns an error, dispatch returns zero bytes and that
error, without ever invoking the stored handler (zero handler invocations),
and without touching the socket. -/
theorem C8_recv_error_propagates (u : tcpSocket) (e : GoError)
    (hh : u.handlerNil = false) (hp : u.packet.HasPacket = true)
    (he : u.tcbRecvErr = some e) :
    u.HandleEth = some (0, some e, u, 0) := by
  unfold tcpSocket.HandleEth
  rw [hh, hp, he]
  simp

/-- C8 witness: the receive-error theorem applied at `sockE`. -/
theorem C8_recv_error_propagates_witness :
    sockE.HandleEth = some (0, some "segment out of window", sockE, 0) :=
  C8_recv_error_propagates sockE "segment out of window" rfl (by decide) rfl

/-- C10: when dispatch on a real pending packet aborts because the control
block's receive step returned an error, the whole socket — in particular the
slot's receive timestamp — is left unchanged and `IsPendingHandling()` remains
true (for an open socket), so the same packet is still pending; by contrast,
every dispatch path that actually invokes the handler ends with the slot
timestamp reset to the zero sentinel. -/
theorem C10_recv_error_keeps_packet (u : tcpSocket) (e : GoError)
    (hh : u.handlerNil = false) (hp : u.packet.HasPacket = true)
    (he : u.tcbRecvErr = some e) :
    u.HandleEth = some (0, some e, u, 0) ∧
    (u.Port ≠ 0 → u.IsPendingHandling = true) ∧
    (∀ (v w : tcpSocket) (n : Int) (err : Option GoError),
       v.HandleEth = some (n, err, w, 1) → w.packet.Rx = 0) := by
  refine ⟨?_, ?_, ?_⟩
  · unfold tcpSocket.HandleEth
    rw [hh, hp, he]
    simp
  · intro hport
    have hx := of_decide_eq_true hp
    unfold tcpSocket.IsPendingHandling
    exact decide_eq_true ⟨hport, by simpa using hx.2⟩
  · intro v w n err hv
    unfold tcpSocket.HandleEth at hv
    rcases hvn : v.handlerNil with _ | _
    · rw [hvn] at hv
      simp only [Bool.false_eq_true, if_false] at hv
      rcases hvp : v.packet.HasPacket with _ | _
      · rw [hvp] at hv
        simp only [Bool.false_eq_true, if_false] at hv
        cases hv
        rfl
      · rw [hvp] at hv
        simp only [if_true] at hv
        rcases hve : v.tcbRecvErr with _ | e1
        · rw [hve] at hv
          simp only [] at hv
          rcases hvo : v.tcbPendingOk with _ | _
          · rw [hvo] at hv
            simp only [Bool.false_eq_true, if_false] at hv
            cases hv
          · rw [hvo] at hv
            simp only [if_true] at hv
            cases hv
            rfl
        · rw [hve] at hv
          simp only [] at hv
          cases hv
    · rw [hvn] at hv
      simp at hv

/-- Helper: every returning (non-crash) outcome of the response-construction
tail `dhcpBuildAndSend` reports exactly `dhcpOffset + sizeDHCPTotal` bytes
written. -/
theorem dhcpBuildAndSend_ret_n (d : DHCPServer) (resp : List Nat)
    (packet : UDPPacket) (mac : List Nat) (hdr : DHCPHeader) (client : dhcpclient)
    (opts : List dhcpOption) (n : Nat) (err : Option GoError) (d1 : DHCPServer)
    (resp1 : List Nat) (packet1 : UDPPacket)
    (h : dhcpBuildAndSend d resp packet mac hdr client opts
          = UDPHandleOut.ret n err d1 resp1 packet1) :
    n = dhcpOffset + sizeDHCPTotal := by
  unfold dhcpBuildAndSend at h
  dsimp only at h
  split at h
  · cases h
  · split at h
    · cases h
    · split at h
      · cases h
      · split at h
        · cases h
        · injection h with h1 h2 h3 h4 h5
          exact h1.symm

/-- Helper: whenever the switch-and-respond tail of `HandleUDP` returns with
zero bytes written, the server and the response buffer are echoed back
unchanged. -/
theorem dhcpRespond_ret_zero (d : DHCPServer) (resp : List Nat)
    (packet : UDPPacket) (mac : List Nat) (hdr : DHCPHeader) (client : dhcpclient)
    (msgType : Nat) (err : Option GoError) (d1 : DHCPServer) (resp1 : List Nat)
    (packet1 : UDPPacket)
    (h : dhcpRespond d resp packet mac hdr client msgType
          = UDPHandleOut.ret 0 err d1 resp1 packet1) :
    d1 = d ∧ resp1 = resp := by
  have hne : ¬ ((0 : Nat) = dhcpOffset + sizeDHCPTotal) := by decide
  unfold dhcpRespond at h
  split at h
  · split at h
    · injection h with h1 h2 h3 h4 h5
      exact ⟨h3.symm, h4.symm⟩
    · split at h
      · cases h
      · split at h
        · cases h
        · exact absurd (dhcpBuildAndSend_ret_n _ _ _ _ _ _ _ _ _ _ _ _ h) hne
  · split at h
    · split at h
      · injection h with h1 h2 h3 h4 h5
        exact ⟨h3.symm, h4.symm⟩
      · exact absurd (dhcpBuildAndSend_ret_n _ _ _ _ _ _ _ _ _ _ _ _ h) hne
    · exact absurd (dhcpBuildAndSend_ret_n _ _ _ _ _ _ _ _ _ _ _ _ h) hne

/-- C9: whenever `HandleUDP` returns zero bytes written — any of its error or
drop paths — the per-client hosts table and the destination response buffer
are echoed back entirely unchanged. -/
theorem C9_zero_return_frame (d : DHCPServer) (resp : List Nat)
    (packet : UDPPacket) (err : Option GoError) (d1 : DHCPServer)
    (resp1 : List Nat) (packet1 : UDPPacket)
    (hret : d.HandleUDP resp packet = UDPHandleOut.ret 0 err d1 resp1 packet1) :
    d1.hosts = d.hosts ∧ resp1 = resp := by
  unfold DHCPServer.HandleUDP at hret
  dsimp only at hret
  split at hret
  · injection hret with h1 h2 h3 h4 h5
    exact ⟨by rw [← h3], h4.symm⟩
  · split at hret
    · injection hret with h1 h2 h3 h4 h5
      exact ⟨by rw [← h3], h4.symm⟩
    · split at hret
      · injection hret with h1 h2 h3 h4 h5
        exact ⟨by rw [← h3], h4.symm⟩
      · split at hret
        · cases hret
        · injection hret with h1 h2 h3 h4 h5
          exact ⟨by rw [← h3], h4.symm⟩
        · split at hret
          · split at hret
            · cases hret
            · split at hret
              · injection hret with h1 h2 h3 h4 h5
                exact ⟨by rw [← h3], h4.symm⟩
              · rcases dhcpRespond_ret_zero _ _ _ _ _ _ _ _ _ _ _ hret with ⟨hd, hr⟩
                exact ⟨by rw [hd], hr⟩
          · rcases dhcpRespond_ret_zero _ _ _ _ _ _ _ _ _ _ _ hret with ⟨hd, hr⟩
            exact ⟨by rw [hd], hr⟩

/-- C9 witness: the frame property applied at the concrete silently-dropped
Request of the C4 scenario (a zero-byte return). -/
theorem C9_zero_return_frame_witness :
    srv0.hosts = srv0.hosts ∧ c3resp = c3resp :=
  C9_zero_return_frame srv0 c3resp c4wpacket none srv0 c3resp c4wpacket (by decide)

/-- C10 witness: at `sockE` the failed dispatch leaves the socket unchanged
and still pending. -/
theorem C10_recv_error_keeps_packet_witness :
    sockE.HandleEth = some (0, some "segment out of window", sockE, 0) ∧
    sockE.IsPendingHandling = true :=
  ⟨(C10_recv_error_keeps_packet sockE "segment out of window" rfl (by decide) rfl).1,
    (C10_recv_error_keeps_packet sockE "segment out of window" rfl (by decide) rfl).2.1
      (by decide)⟩

end Seqs
